import Mathlib

/-!
Verification development for the tinymudserver connection engine
(`tinymudserver.cpp`).  The definitions below are a shallow embedding of
the server's data model and per-connection logic: sessions are records,
the player list is indexed by position (standing in for pointer identity),
sockets and files are replaced by explicit inputs (read/write outcomes,
an in-memory disk map), and C++ exceptions become an `Option String`
error component threaded through each handler.  Each definition cites the
source function it embeds.
-/

namespace TinyMud

/-! ## String utilities (tolower, tocapitals, Trim, valid_player_name) -/

/-- `tolower (const string &)`, tinymudserver.cpp line 280. -/
def lcs (s : String) : String := ⟨s.data.map Char.toLower⟩

/-- `ciStringEqual` (case-independent equality via `ciEqualTo`), line 323. -/
def ciEq (a b : String) : Bool := lcs a == lcs b

/-- Transformation state of `fCapitals`, line 289: capitalise the first
letter and every letter following a non-alphanumeric character. -/
def tocapitalsAux : Bool → List Char → List Char
  | _, [] => []
  | up, c :: cs =>
    (if up then c.toUpper else c.toLower) :: tocapitalsAux (!c.isAlphanum) cs

/-- `tocapitals`, line 314. -/
def tocapitals (s : String) : String := ⟨tocapitalsAux true s.data⟩

/-- `SPACES = " \t\r\n"`, the characters removed by `Trim` (line 64). -/
def isTrimChar (c : Char) : Bool := c == ' ' || c == '\t' || c == '\r' || c == '\n'

/-- `Trim`, line 269: strip leading and trailing `SPACES` characters. -/
def trim (s : String) : String :=
  ⟨((s.data.dropWhile isTrimChar).reverse.dropWhile isTrimChar).reverse⟩

/-- Whitespace as skipped by `istream >> string` (C locale `isspace`). -/
def isStreamWs (c : Char) : Bool :=
  c == ' ' || c == '\t' || c == '\n' || c == '\r' || c == '\x0b' || c == '\x0c'

/-- Skip leading stream whitespace (`sArgs >> ws`). -/
def dropWs (cs : List Char) : List Char := cs.dropWhile isStreamWs

/-- One `sArgs >> token` extraction: skip whitespace, take the maximal run
of non-whitespace characters.  An empty result models a failed extraction
(the string is cleared on failure). -/
def readString (cs : List Char) : String × List Char :=
  let cs' := dropWs cs
  (⟨cs'.takeWhile (fun c => !isStreamWs c)⟩, cs'.dropWhile (fun c => !isStreamWs c))

/-- `sArgs >> (int)`: optional sign then digits; `none` models `fail()`. -/
def readInt (cs : List Char) : Option Int × List Char :=
  let cs1 := dropWs cs
  let signAndRest : Bool × List Char :=
    match cs1 with
    | '-' :: t => (true, t)
    | '+' :: t => (false, t)
    | _ => (false, cs1)
  let ds := signAndRest.2.takeWhile Char.isDigit
  let rest := signAndRest.2.dropWhile Char.isDigit
  if ds.isEmpty then (none, cs)
  else
    let n : Nat := ds.foldl (fun a c => a * 10 + (c.toNat - 48)) 0
    (some (if signAndRest.1 then -(n : Int) else (n : Int)), rest)

/-- `valid_player_name`, line 62: the allowed name/flag characters. -/
def valid_player_name : String :=
  "ABCDEFGHIJKLMNOPQRSTUVWXYZabcdefghijklmnopqrstuvwxyz0123456789_-"

/-- `s.find_first_not_of (valid_player_name) != string::npos`. -/
def invalidName (s : String) : Bool :=
  s.data.any (fun c => !valid_player_name.data.contains c)

/-! ## Case-insensitive string sets (`set<string, ciLess>`) modelled as
lists without ci-duplicates, in insertion order. -/

/-- `s.find (x) != s.end ()` on a `set<string, ciLess>`. -/
def ciMem (x : String) (fs : List String) : Bool := fs.any (fun g => ciEq g x)

/-- `s.insert (x)` on a `set<string, ciLess>` (no-op when ci-present). -/
def ciInsert (x : String) (fs : List String) : List String :=
  if ciMem x fs then fs else fs ++ [x]

/-- `s.erase (x)` on a `set<string, ciLess>`. -/
def ciErase (x : String) (fs : List String) : List String :=
  fs.filter (fun g => lcs g != lcs x)

/-! ## Configuration constants (lines 45-64) -/

def MAX_PASSWORD_ATTEMPTS : Nat := 3
def INITIAL_ROOM : Int := 1000
def PROMPT : String := "> "

/-! ## Data model: connection states, players, rooms, the game state -/

/-- `tConnectionStates`, line 80. -/
inductive ConnState where
  | awaitingName
  | awaitingPassword
  | awaitingNewName
  | awaitingNewPassword
  | confirmPassword
  | playing
deriving DecidableEq, Repr

/-- `tPlayer`, line 152.  `connected` models `s != NO_SOCKET`. -/
structure Player where
  connected : Bool
  closing : Bool
  connstate : ConnState
  prompt : String
  playername : String
  password : String
  badPasswordCount : Nat
  room : Int
  flags : List String
  outbuf : String
  inbuf : String
  address : String
deriving DecidableEq, Repr

/-- `tRoom`, line 240: description plus exit map (direction → vnum).
The `map<string,int>` exit map is modelled as an association list; lookup
is by exact (case-sensitive) key, as with the default comparator. -/
structure Room where
  description : String
  exits : List (String × Int)
deriving DecidableEq, Repr

/-- The parsed contents of one on-disk player record (see `tPlayer::Load`). -/
structure PlayerFile where
  password : String
  room : Int
  flags : List String
deriving DecidableEq, Repr

/-- The global state: `playerlist` (as an indexed family, index standing
for pointer identity), `roommap`, the control-file sets, `messagemap`,
the player files on disk, and `bStopNow`. -/
structure Game where
  nplayers : Nat
  players : Nat → Player
  roommap : List (Int × Room)
  directionset : List String
  badnameset : List String
  messagemap : List (String × String)
  disk : List (String × PlayerFile)
  bStopNow : Bool

def Game.pl (g : Game) (i : Nat) : Player := g.players i

/-- Replace player `i` (mutation of the object `p` points at). -/
def setPl (g : Game) (i : Nat) (p : Player) : Game :=
  { g with players := fun j => if j = i then p else g.players j }

/-- `*p << text` (operator<<, line 204): append to the pending output. -/
def appendOut (g : Game) (i : Nat) (t : String) : Game :=
  setPl g i { g.pl i with outbuf := (g.pl i).outbuf ++ t }

/-- `tPlayer::IsPlaying`, line 198. -/
def IsPlaying (p : Player) : Bool :=
  p.connected && p.connstate == ConnState.playing && !p.closing

/-- `tPlayer::HaveFlag`, line 1092. -/
def HaveFlag (p : Player) (name : String) : Bool := ciMem name p.flags

/-- `FindPlayer`, line 362: first list entry that is playing and whose
name ci-equals `name`; the index stands for the returned pointer. -/
def findPlayerIdx (g : Game) (name : String) : Option Nat :=
  (List.range g.nplayers).find? (fun j => IsPlaying (g.pl j) && ciEq (g.pl j).playername name)

/-- `roommap.find (vnum)` inside `FindRoom`, line 374. -/
def findRoom (g : Game) (vnum : Int) : Option Room :=
  ((g.roommap.find? (fun e => e.1 == vnum)).map (fun e => e.2))

/-- `r->exits.find (dir)` (exact-key map lookup), line 564. -/
def lookupExit (ex : List (String × Int)) (dir : String) : Option Int :=
  ((ex.find? (fun e => e.1 == dir)).map (fun e => e.2))

/-- `messagemap [code]` on the ci-keyed map; absent keys yield `""`. -/
def msgLookup (g : Game) (code : String) : String :=
  (((g.messagemap.find? (fun e => ciEq e.1 code)).map (fun e => e.2))).getD ""

/-- Does a player file exist for (exact) name `n`, and what does it hold? -/
def diskLookup (g : Game) (n : String) : Option PlayerFile :=
  ((g.disk.find? (fun e => e.1 == n)).map (fun e => e.2))

/-- `tPlayer::Init`, line 185: note it does NOT clear `playername`,
`password`, `badPasswordCount` or `closing`. -/
def initPlayer (p : Player) : Player :=
  { p with connstate := ConnState.awaitingName,
           room := INITIAL_ROOM,
           flags := [],
           prompt := "Enter your name, or 'new' to create a new character ...  " }

/-! ## Broadcast fan-out (`sendToPlayer` functor line 518, `SendToAll` line 538) -/

/-- The per-player test and append of `sendToPlayer::operator()`, line 528. -/
def sendToPlayerOne (message : String) (except : Option Nat) (room : Int)
    (j : Nat) (p : Player) : Player :=
  if IsPlaying p = true ∧ some j ≠ except ∧ (room = 0 ∨ p.room = room) then
    { p with outbuf := p.outbuf ++ message }
  else p

/-- `SendToAll (message, ExceptThis, InRoom)`: apply `sendToPlayer` to every
member of `playerlist`.  `except` is the index of the excluded session
(`NULL` = `none`); `room = 0` means no room restriction, as in the source. -/
def sendToAllG (g : Game) (message : String) (except : Option Nat) (room : Int) : Game :=
  { g with players := fun j =>
      if j < g.nplayers then sendToPlayerOne message except room j (g.players j)
      else g.players j }

/-! ## Command argument helpers (GetMessage, GetFlag, NoMore, GetPlayer) -/

/-- Result of a handler: the (possibly mutated) game together with the
message of a thrown `runtime_error`, if any.  Side effects performed
before a throw persist, exactly as with C++ exceptions. -/
abbrev HRes := Game × Option String

/-- The type of the `DoCommand`/`ProcessCommand` re-entry point passed to
handlers that run a nested command (movement's `look`). -/
abbrev RunCmd := Game → Nat → List Char → HRes

/-- `GetMessage`, line 385: skip spaces, take the rest of the line. -/
def GetMessage (cs : List Char) (noMessageError : String) : Except String String :=
  let message : String := ⟨dropWs cs⟩
  if message = "" then .error noMessageError else .ok message

/-- `GetFlag`, line 396. -/
def GetFlag (cs : List Char) (noFlagError : String) : Except String (String × List Char) :=
  let r := readString cs
  if r.1 = "" then .error noFlagError
  else if invalidName r.1 then .error "Flag name not valid."
  else .ok r

/-- `NoMore`, line 762: `getline` the remainder and reject if non-empty.
Returns the error to throw, if any. -/
def noMore (cs : List Char) : Option String :=
  if cs.isEmpty then none else some ("Unexpected input: " ++ (⟨cs⟩ : String))

/-- `tPlayer::GetPlayer`, line 408: resolve a target player ("me"/"self"
is the caller), throwing when absent or (with `notme`) the caller. -/
def GetPlayer (g : Game) (i : Nat) (cs : List Char) (noNameMessage : String)
    (notme : Bool) : Except String (Nat × List Char) :=
  let r := readString cs
  if r.1 = "" then .error noNameMessage
  else
    let tgt : Option Nat :=
      if ciEq r.1 "me" || ciEq r.1 "self" then some i else findPlayerIdx g r.1
    match tgt with
    | none => .error ("Player " ++ tocapitals r.1 ++ " is not connected.")
    | some j =>
      if notme ∧ j = i then .error "You cannot do that to yourself."
      else .ok (j, r.2)

/-! ## Non-recursive command handlers -/

/-- `DoLook`, line 790: description, exit list, other occupants. -/
def DoLook (g : Game) (i : Nat) (args : List Char) : HRes :=
  match noMore args with
  | some e => (g, some e)
  | none =>
    match findRoom g (g.pl i).room with
    | none => (g, some ("Room number " ++ toString (g.pl i).room ++ " does not exist."))
    | some r =>
      let exitsText :=
        if r.exits.isEmpty then ""
        else "Exits: " ++ String.join (r.exits.map (fun e => e.1 ++ " ")) ++ "\n"
      let others :=
        ((List.range g.nplayers).filter (fun j =>
          j ≠ i && IsPlaying (g.pl j) && (g.pl j).room == (g.pl i).room)).map
          (fun j => (g.pl j).playername)
      let othersText :=
        if others.isEmpty then ""
        else "You also see " ++ String.intercalate ", " others ++ ".\n"
      (appendOut g i (r.description ++ exitsText ++ othersText), none)

/-- `DoSay`, line 841: self-echo then a room-restricted broadcast. -/
def DoSay (g : Game) (i : Nat) (args : List Char) : HRes :=
  if HaveFlag (g.pl i) "gagged" then (g, some "You are not permitted to do that.")
  else
    match GetMessage args "Say what?" with
    | .error e => (g, some e)
    | .ok what =>
      let g1 := appendOut g i ("You say, \"" ++ what ++ "\"\n")
      (sendToAllG g1 ((g1.pl i).playername ++ " says, \"" ++ what ++ "\"\n")
        (some i) ((g1.pl i).room), none)

/-- `DoTell`, line 852.  (The confirmation echoes `p->playername`, i.e.
the speaker's own name, exactly as in the source.) -/
def DoTell (g : Game) (i : Nat) (args : List Char) : HRes :=
  if HaveFlag (g.pl i) "gagged" then (g, some "You are not permitted to do that.")
  else
    match GetPlayer g i args "Tell whom?" true with
    | .error e => (g, some e)
    | .ok (j, rest) =>
      match GetMessage rest ("Tell " ++ (g.pl i).playername ++ " what?") with
      | .error e => (g, some e)
      | .ok what =>
        let g1 := appendOut g i
          ("You tell " ++ (g.pl i).playername ++ ", \"" ++ what ++ "\"\n")
        (appendOut g1 j ((g1.pl i).playername ++ " tells you, \"" ++ what ++ "\"\n"), none)

/-- `DoSetFlag`, line 861. -/
def DoSetFlag (g : Game) (i : Nat) (args : List Char) : HRes :=
  if !HaveFlag (g.pl i) "can_setflag" then (g, some "You are not permitted to do that.")
  else
    match GetPlayer g i args "Usage: setflag <who> <flag>" false with
    | .error e => (g, some e)
    | .ok (j, rest) =>
      match GetFlag rest "Set which flag?" with
      | .error e => (g, some e)
      | .ok (flag, rest2) =>
        match noMore rest2 with
        | some e => (g, some e)
        | none =>
          if ciMem flag (g.pl j).flags then (g, some "Flag already set.")
          else
            let g1 := setPl g j { g.pl j with flags := ciInsert flag (g.pl j).flags }
            (appendOut g1 i
              ("You set the flag '" ++ flag ++ "' for " ++ (g1.pl j).playername ++ "\n"),
             none)

/-- `DoClearFlag`, line 875. -/
def DoClearFlag (g : Game) (i : Nat) (args : List Char) : HRes :=
  if !HaveFlag (g.pl i) "can_setflag" then (g, some "You are not permitted to do that.")
  else
    match GetPlayer g i args "Usage: clearflag <who> <flag>" false with
    | .error e => (g, some e)
    | .ok (j, rest) =>
      match GetFlag rest "Clear which flag?" with
      | .error e => (g, some e)
      | .ok (flag, rest2) =>
        match noMore rest2 with
        | some e => (g, some e)
        | none =>
          if !ciMem flag (g.pl j).flags then (g, some "Flag not set.")
          else
            let g1 := setPl g j { g.pl j with flags := ciErase flag (g.pl j).flags }
            (appendOut g1 i
              ("You clear the flag '" ++ flag ++ "' for " ++ (g1.pl j).playername ++ "\n"),
             none)

/-- `DoShutdown`, line 889 (note the source checks `NoMore` before the
permission flag). -/
def DoShutdown (g : Game) (i : Nat) (args : List Char) : HRes :=
  match noMore args with
  | some e => (g, some e)
  | none =>
    if !HaveFlag (g.pl i) "can_shutdown" then (g, some "You are not permitted to do that.")
    else
      let g1 := sendToAllG g ((g.pl i).playername ++ " shuts down the game\n") none 0
      ({ g1 with bStopNow := true }, none)

/-- `DoHelp`, line 897. -/
def DoHelp (g : Game) (i : Nat) (args : List Char) : HRes :=
  match noMore args with
  | some e => (g, some e)
  | none => (appendOut g i (msgLookup g "help"), none)

/-- `DoQuit`, line 772: announce departure when playing, then mark closing. -/
def DoQuit (g : Game) (i : Nat) (args : List Char) : HRes :=
  match noMore args with
  | some e => (g, some e)
  | none =>
    let g1 :=
      if (g.pl i).connstate = ConnState.playing then
        sendToAllG (appendOut g i "See you next time!\n")
          ("Player " ++ (g.pl i).playername ++ " has left the game.\n") (some i) 0
      else g
    (setPl g1 i { g1.pl i with closing := true }, none)

/-! ## Movement (PlayerToRoom, DoDirection, DoGoTo, DoTransfer) -/

/-- `PlayerToRoom`, line 544: find the destination (throwing on a dangling
vnum before any side effect), broadcast departure, move, echo, run a
nested `look`, broadcast arrival. -/
def PlayerToRoom (runCmd : RunCmd) (g : Game) (i : Nat) (vnum : Int)
    (sPlayerMessage sOthersDepartMessage sOthersArriveMessage : String) : HRes :=
  match findRoom g vnum with
  | none => (g, some ("Room number " ++ toString vnum ++ " does not exist."))
  | some _ =>
    let g1 := sendToAllG g sOthersDepartMessage (some i) ((g.pl i).room)
    let g2 := setPl g1 i { g1.pl i with room := vnum }
    let g3 := appendOut g2 i sPlayerMessage
    match runCmd g3 i "look".data with
    | (g4, some e) => (g4, some e)
    | (g4, none) =>
      (sendToAllG g4 sOthersArriveMessage (some i) ((g4.pl i).room), none)

/-- `DoDirection`, line 558. -/
def DoDirection (runCmd : RunCmd) (g : Game) (i : Nat) (sArgs : String) : HRes :=
  match findRoom g (g.pl i).room with
  | none => (g, some ("Room number " ++ toString (g.pl i).room ++ " does not exist."))
  | some r =>
    match lookupExit r.exits sArgs with
    | none => (g, some "You cannot go that way.")
    | some dest =>
      PlayerToRoom runCmd g i dest
        ("You go " ++ sArgs ++ "\n")
        ((g.pl i).playername ++ " goes " ++ sArgs ++ "\n")
        ((g.pl i).playername ++ " enters.\n")

/-- `DoGoTo`, line 903. -/
def DoGoTo (runCmd : RunCmd) (g : Game) (i : Nat) (args : List Char) : HRes :=
  if !HaveFlag (g.pl i) "can_goto" then (g, some "You are not permitted to do that.")
  else
    match readInt args with
    | (none, _) => (g, some "Go to which room?")
    | (some room, rest) =>
      match noMore rest with
      | some e => (g, some e)
      | none =>
        PlayerToRoom runCmd g i room
          ("You go to room " ++ toString room ++ "\n")
          ((g.pl i).playername ++ " disappears in a puff of smoke!\n")
          ((g.pl i).playername ++ " appears in a puff of smoke!\n")

/-- `DoTransfer`, line 924.  When the room number is absent the stream's
fail bit is set, so the subsequent `NoMore`'s `getline` fails and reads
nothing: the trailing-input check passes vacuously, as in the source. -/
def DoTransfer (runCmd : RunCmd) (g : Game) (i : Nat) (args : List Char) : HRes :=
  if !HaveFlag (g.pl i) "can_transfer" then (g, some "You are not permitted to do that.")
  else
    match GetPlayer g i args "Usage: transfer <who> [ where ] (default is here)" true with
    | .error e => (g, some e)
    | .ok (j, rest) =>
      let roomAndCheck : Int × Option String :=
        match readInt rest with
        | (none, _) => ((g.pl i).room, none)
        | (some room, rest2) => (room, noMore rest2)
      match roomAndCheck.2 with
      | some e => (g, some e)
      | none =>
        let room := roomAndCheck.1
        let g1 := appendOut g i
          ("You transfer " ++ (g.pl j).playername ++ " to room " ++ toString room ++ "\n")
        PlayerToRoom runCmd g1 j room
          ((g1.pl i).playername ++ " transfers you to another room!\n")
          ((g1.pl j).playername ++ " is yanked away by unseen forces!\n")
          ((g1.pl j).playername ++ " appears breathlessly!\n")

/-! ## Command dispatch (`ProcessCommand`, line 579) -/

/-- `ProcessCommand`: extract the verb, try the (ci) direction set, then
the (exact-keyed) command map, else "Huh?".  The `fuel` bounds nesting of
`DoCommand` re-entry (`PlayerToRoom`'s `look`); real traces use depth ≤ 2,
and a cycle of `look`-named exits would not terminate in the source. -/
def ProcessCommand : Nat → Game → Nat → List Char → HRes
  | 0, g, _, _ => (g, none)
  | f + 1, g, i, cs =>
    let r := readString cs
    let command := r.1
    let rest := dropWs r.2
    if ciMem command g.directionset then DoDirection (ProcessCommand f) g i command
    else
      match command with
      | "look" => DoLook g i rest
      | "l" => DoLook g i rest
      | "quit" => DoQuit g i rest
      | "say" => DoSay g i rest
      | "\"" => DoSay g i rest
      | "tell" => DoTell g i rest
      | "shutdown" => DoShutdown g i rest
      | "help" => DoHelp g i rest
      | "goto" => DoGoTo (ProcessCommand f) g i rest
      | "transfer" => DoTransfer (ProcessCommand f) g i rest
      | "setflag" => DoSetFlag g i rest
      | "clearflag" => DoClearFlag g i rest
      | _ => (g, some "Huh?")

/-! ## Entering the game and the login state handlers -/

/-- `PlayerEnteredGame`, line 600: switch to `ePlaying`, set the default
prompt, greet, show the message-of-the-day, run `look`, announce the join
to everyone else.  An exception from the nested `look` (missing room)
propagates, skipping the join broadcast. -/
def PlayerEnteredGame (runCmd : RunCmd) (g : Game) (i : Nat) (message : String) : HRes :=
  let g1 := setPl g i { g.pl i with connstate := ConnState.playing, prompt := PROMPT }
  let g2 := appendOut g1 i
    ("Welcome, " ++ (g1.pl i).playername ++ "\n\n" ++ message ++ msgLookup g "motd")
  match runCmd g2 i "look".data with
  | (g3, some e) => (g3, some e)
  | (g3, none) =>
    (sendToAllG g3
      ("Player " ++ (g3.pl i).playername ++ " has joined the game from "
        ++ (g3.pl i).address ++ ".\n") (some i) 0, none)

/-- `ProcessPlayerName`, line 618 (state `eAwaitingName`). -/
def ProcessPlayerName (g : Game) (i : Nat) (cs : List Char) : HRes :=
  let playername := (readString cs).1
  if playername = "" then (g, some "Name cannot be blank.")
  else if (findPlayerIdx g playername).isSome then
    (g, some (playername ++ " is already connected."))
  else if invalidName playername then
    (g, some "That player name contains disallowed characters.")
  else if lcs playername = "new" then
    (setPl g i { g.pl i with
      connstate := ConnState.awaitingNewName
      prompt := "Please choose a name for your new character ... " }, none)
  else
    let p1 := { g.pl i with playername := tocapitals playername }
    match diskLookup g p1.playername with
    | none =>
      (setPl g i p1, some "That player does not exist, type 'new' to create a new one.")
    | some pf =>
      (setPl g i { p1 with
        password := pf.password, room := pf.room, flags := pf.flags
        connstate := ConnState.awaitingPassword
        prompt := "Enter your password ... ", badPasswordCount := 0 }, none)

/-- `ProcessNewPlayerName`, line 652 (state `eAwaitingNewName`). -/
def ProcessNewPlayerName (g : Game) (i : Nat) (cs : List Char) : HRes :=
  let playername := (readString cs).1
  if playername = "" then (g, some "Name cannot be blank.")
  else if invalidName playername then
    (g, some "That player name contains disallowed characters.")
  else if ciMem playername g.badnameset then (g, some "That name is not permitted.")
  else if (diskLookup g (tocapitals playername)).isSome
      || (findPlayerIdx g playername).isSome then
    (g, some "That player already exists, please choose another name.")
  else
    (setPl g i { g.pl i with
      playername := tocapitals playername
      connstate := ConnState.awaitingNewPassword
      prompt := "Choose a password for " ++ tocapitals playername ++ " ... "
      badPasswordCount := 0 }, none)

/-- `ProcessNewPassword`, line 680 (state `eAwaitingNewPassword`). -/
def ProcessNewPassword (g : Game) (i : Nat) (cs : List Char) : HRes :=
  let password := (readString cs).1
  if password = "" then (g, some "Password cannot be blank.")
  else
    (setPl g i { g.pl i with
      password := password
      connstate := ConnState.confirmPassword
      prompt := "Re-enter password to confirm it ... " }, none)

/-- `ProcessConfirmPassword`, line 695 (state `eConfirmPassword`).
Note: the late uniqueness re-check at source lines 709-710 tests the
`password` variable (the repeated password), not `p->playername` — the
player file opened is `players/<tocapitals(password)>.player` and
`FindPlayer (password)` is called.  This is embedded verbatim. -/
def ProcessConfirmPassword (runCmd : RunCmd) (g : Game) (i : Nat) (cs : List Char) : HRes :=
  let password := (readString cs).1
  if password ≠ (g.pl i).password then
    (setPl g i { g.pl i with
      connstate := ConnState.awaitingNewPassword
      prompt := "Choose a password for " ++ (g.pl i).playername ++ " ... " },
     some "Password and confirmation do not agree.")
  else if (diskLookup g (tocapitals password)).isSome
      || (findPlayerIdx g password).isSome then
    (setPl g i { g.pl i with
      connstate := ConnState.awaitingNewName
      prompt := "Please choose a name for your new character ... " },
     some "That player already exists, please choose another name.")
  else PlayerEnteredGame runCmd g i (msgLookup g "new_player")

/-- `ProcessPlayerPassword`, line 722 (state `eAwaitingPassword`): the
whole body is wrapped in a try block whose catch increments
`badPasswordCount` and, at `MAX_PASSWORD_ATTEMPTS`, shows a message and
calls `Init`, then rethrows. -/
def ProcessPlayerPassword (runCmd : RunCmd) (g : Game) (i : Nat) (cs : List Char) : HRes :=
  let body : HRes :=
    let password := (readString cs).1
    if password = "" then (g, some "Password cannot be blank.")
    else if password ≠ (g.pl i).password then (g, some "That password is incorrect.")
    else if HaveFlag (g.pl i) "blocked" then
      (setPl g i { g.pl i with closing := true, prompt := "Goodbye.\n" },
       some "You are not permitted to connect.")
    else PlayerEnteredGame runCmd g i (msgLookup g "existing_player")
  match body with
  | (g1, none) => (g1, none)
  | (g1, some e) =>
    let p := g1.pl i
    let p := { p with badPasswordCount := p.badPasswordCount + 1 }
    if p.badPasswordCount ≥ MAX_PASSWORD_ATTEMPTS then
      (setPl g1 i (initPlayer
        { p with outbuf := p.outbuf ++ "Too many attempts to guess the password!\n" }),
       some e)
    else (setPl g1 i p, some e)

/-! ## The dispatch boundary (`ProcessPlayerInput`, line 949) -/

/-- The `statemap` built by `LoadThings` (lines 1455-1462), as a total
dispatch: every connection state has a handler. -/
def dispatchState (fuel : Nat) (st : ConnState) (g : Game) (i : Nat) (cs : List Char) : HRes :=
  match st with
  | ConnState.awaitingName => ProcessPlayerName g i cs
  | ConnState.awaitingPassword => ProcessPlayerPassword (ProcessCommand fuel) g i cs
  | ConnState.awaitingNewName => ProcessNewPlayerName g i cs
  | ConnState.awaitingNewPassword => ProcessNewPassword g i cs
  | ConnState.confirmPassword => ProcessConfirmPassword (ProcessCommand fuel) g i cs
  | ConnState.playing => ProcessCommand fuel g i cs

/-- `ProcessPlayerInput`: run the current state's handler inside the
single try block; render a thrown error as one line of text to the
session; then re-send the (possibly updated) prompt. -/
def ProcessPlayerInput (fuel : Nat) (g : Game) (i : Nat) (s : String) : Game :=
  let r := dispatchState fuel ((g.pl i).connstate) g i s.data
  let g2 := match r.2 with
    | some e => appendOut r.1 i (e ++ "\n")
    | none => r.1
  appendOut g2 i ((g2.pl i).prompt)

/-! ## Session read handling (`tPlayer::ProcessRead`, line 1114) -/

/-- The outcome of the `read` system call on the session socket:
`wouldBlock` is `-1` with `errno == EWOULDBLOCK`, `readError` is `-1`
with any other errno, `closedPeer` is `0` bytes, `data` is a successful
read of the given bytes. -/
inductive ReadResult where
  | wouldBlock
  | readError
  | closedPeer
  | data (s : String)
deriving DecidableEq, Repr

/-- Split the pending input at its first newline, if any. -/
def splitLine (s : String) : Option (String × String) :=
  if s.data.contains '\n' then
    some (⟨s.data.takeWhile (fun c => c ≠ '\n')⟩,
          ⟨(s.data.dropWhile (fun c => c ≠ '\n')).drop 1⟩)
  else none

/-- The line-extraction loop of `ProcessRead` (lines 1145-1155): extract
each complete line, trim it, dispatch it.  `lfuel` bounds the iterations
(the buffer holds at most as many lines as characters). -/
def processLinesAux : Nat → Nat → Game → Nat → Game
  | 0, _, g, _ => g
  | lf + 1, fuel, g, i =>
    match splitLine ((g.pl i).inbuf) with
    | none => g
    | some (line, rest) =>
      let g1 := setPl g i { g.pl i with inbuf := rest }
      let g2 := ProcessPlayerInput fuel g1 i (trim line)
      processLinesAux lf fuel g2 i

/-- `tPlayer::ProcessRead`: nothing happens for a closing session; a
would-block result is a no-op; an error result (`-1`, errno not
`EWOULDBLOCK`) is logged and is ALSO a no-op (only the early return at
lines 1126-1131 runs); a zero-byte result marks the socket dead
(`s = NO_SOCKET`) and dispatches a synthetic "quit"; data is appended to
the input buffer and complete lines are dispatched in order. -/
def ProcessRead (fuel : Nat) (g : Game) (i : Nat) (r : ReadResult) : Game :=
  if (g.pl i).closing then g
  else
    match r with
    | ReadResult.wouldBlock => g
    | ReadResult.readError => g
    | ReadResult.closedPeer =>
      ProcessPlayerInput fuel (setPl g i { g.pl i with connected := false }) i "quit"
    | ReadResult.data s =>
      let g1 := setPl g i { g.pl i with inbuf := (g.pl i).inbuf ++ s }
      processLinesAux (((g1.pl i).inbuf).length + 1) fuel g1 i

/-! ## Session write handling (`tPlayer::ProcessWrite`, line 1163) -/

/-- Outcome of one `write` call: `writeError` is a negative return (both
`EWOULDBLOCK` and other errors take the same early return), `wrote n` is
a successful write of `n` bytes. -/
inductive WriteRes where
  | writeError
  | wrote (n : Nat)
deriving DecidableEq, Repr

/-- `min<int> (outbuf.size (), 512)`: the byte count attempted per write. -/
def attemptSize (buf : String) : Nat := min buf.length 512

/-- The write loop, driven by the list of outcomes the socket produces;
each successful write removes the written bytes from the front, and a
short write ends the pass. -/
def ProcessWriteAux : List WriteRes → String → String
  | [], buf => buf
  | o :: os, buf =>
    if buf.isEmpty then buf
    else
      match o with
      | WriteRes.writeError => buf
      | WriteRes.wrote n =>
        let buf' := buf.drop n
        if n < attemptSize buf then buf' else ProcessWriteAux os buf'

/-- `tPlayer::ProcessWrite`: the loop only runs while `s != NO_SOCKET`. -/
def ProcessWrite (connected : Bool) (os : List WriteRes) (buf : String) : String :=
  if connected then ProcessWriteAux os buf else buf

/-! ## Persistence adapter (`tPlayer::Save` line 1068, `tPlayer::Load`
line 1054, `LoadSet` line 1033) -/

/-- One `istream >> string` extraction with stream flags: returns the
token (`""` when extraction fails), the remaining characters, and whether
`eofbit` is now set (extraction read, or tried to read, past the end). -/
def extractString (cs : List Char) : String × List Char × Bool :=
  let cs' := dropWs cs
  match cs' with
  | [] => ("", [], true)
  | _ =>
    let tok := cs'.takeWhile (fun c => !isStreamWs c)
    let rest := cs'.dropWhile (fun c => !isStreamWs c)
    (⟨tok⟩, rest, rest.isEmpty)

/-- The `LoadSet` loop (line 1041): `while (!is.eof ()) { is >> flag;
s.insert (flag); }`.  When extraction fails at end of line the cleared
(empty) token is still inserted.  `fuel` bounds the iterations; each
non-final one consumes at least one character. -/
def loadSetAux : Nat → List Char → List String → List String
  | 0, _, acc => acc
  | lf + 1, cs, acc =>
    let r := extractString cs
    let acc' := ciInsert r.1 acc
    if r.2.2 then acc' else loadSetAux lf r.2.1 acc'

/-- `LoadSet` applied to one line of input. -/
def loadSetLine (line : String) : List String :=
  loadSetAux (line.length + 1) line.data []

/-- `tPlayer::Save` (line 1068): password line, room line, then the flags
separated (and followed) by single spaces. -/
def savePlayerFile (password : String) (room : Int) (flags : List String) : String :=
  password ++ "\n" ++ toString room ++ "\n"
    ++ String.join (flags.map (fun f => f ++ " ")) ++ "\n"

/-- `tPlayer::Load` (line 1054) applied to the file contents: read the
password token and the room integer, skip the rest of that line, then
`LoadSet` the flags line. -/
def loadPlayerFile (content : String) : String × Int × List String :=
  let r1 := extractString content.data
  let password := r1.1
  let r2 := readInt r1.2.1
  let room := r2.1.getD 0
  let afterRoomLine := (r2.2.dropWhile (fun c => c ≠ '\n')).drop 1
  let flagsLine : List Char := afterRoomLine.takeWhile (fun c => c ≠ '\n')
  (password, room, loadSetAux (flagsLine.length + 1) flagsLine [])

/-! ## Concrete states used by witnesses and counterexamples -/

/-- A connected, playing session with empty buffers. -/
def basePlayer : Player :=
  { connected := true, closing := false, connstate := ConnState.playing,
    prompt := "> ", playername := "", password := "", badPasswordCount := 0,
    room := 1000, flags := [], outbuf := "", inbuf := "", address := "10.0.0.1" }

/-- A one-room world shared by the concrete states below. -/
def baseGame (n : Nat) (ps : Nat → Player) : Game :=
  { nplayers := n, players := ps,
    roommap := [(1000, { description := "The Hall\n", exits := [] })],
    directionset := ["n", "s", "e", "w"], badnameset := [],
    messagemap := [], disk := [], bStopNow := false }

/-- Session 0 is confirming a new character "Bob" whose chosen password
is "Alice"; a DIFFERENT player named Alice is connected and playing.
The chosen name "Bob" is unique. -/
def gC1a : Game :=
  baseGame 2 (fun j =>
    if j = 0 then
      { basePlayer with
        connstate := ConnState.confirmPassword
        playername := "Bob", password := "Alice"
        prompt := "Re-enter password to confirm it ... " }
    else { basePlayer with playername := "Alice" })

/-- Session 0 is confirming a new character "Bob" with password "secret",
while ANOTHER player named Bob is already connected and playing: a
genuine late name collision. -/
def gC1b : Game :=
  baseGame 2 (fun j =>
    if j = 0 then
      { basePlayer with
        connstate := ConnState.confirmPassword
        playername := "Bob", password := "secret"
        prompt := "Re-enter password to confirm it ... " }
    else { basePlayer with playername := "Bob" })

/-- A two-player state for the C7 witness: session 0 ("Admin") holds
`can_setflag`; session 1 ("Bob") already has the flag "shiny". -/
def gC7 : Game :=
  baseGame 2 (fun k =>
    if k = 0 then { basePlayer with playername := "Admin", flags := ["can_setflag"] }
    else { basePlayer with playername := "Bob", flags := ["shiny"] })

/-- One room 1000 whose only exit "n" dangles (room 2000 is not loaded). -/
def gC4 : Game :=
  { baseGame 1 (fun _ => basePlayer) with
    roommap := [(1000, { description := "The Hall\n", exits := [("n", 2000)] })] }

/-- Two playing sessions sharing room 1000, used for C3. -/
def gC3 : Game :=
  baseGame 2 (fun k =>
    if k = 0 then { basePlayer with playername := "Bob" }
    else { basePlayer with playername := "Ann" })

/-- Session 0 awaiting the password of the loaded record for "Bob", with
two failures already on the counter. -/
def gC2 : Game :=
  baseGame 1 (fun _ =>
    { basePlayer with
      connstate := ConnState.awaitingPassword
      playername := "Bob", password := "secret", badPasswordCount := 2
      flags := ["shiny"]
      prompt := "Enter your password ... " })

/-- Session 0 awaiting the password of the "blocked" record "Bob". -/
def gC10 : Game :=
  baseGame 1 (fun _ =>
    { basePlayer with
      connstate := ConnState.awaitingPassword
      playername := "Bob", password := "secret"
      flags := ["blocked"]
      prompt := "Enter your password ... " })

/-! ## Basic lemmas about the state helpers -/

@[simp]
theorem pl_setPl_self (g : Game) (i : Nat) (p : Player) : (setPl g i p).pl i = p := by
  simp [setPl, Game.pl]

theorem pl_setPl_ne (g : Game) (i j : Nat) (p : Player) (h : j ≠ i) :
    (setPl g i p).pl j = g.pl j := by
  simp [setPl, Game.pl, h]

theorem pl_appendOut_self (g : Game) (i : Nat) (t : String) :
    (appendOut g i t).pl i = { g.pl i with outbuf := (g.pl i).outbuf ++ t } := by
  simp [appendOut]

theorem pl_appendOut_ne (g : Game) (i j : Nat) (t : String) (h : j ≠ i) :
    (appendOut g i t).pl j = g.pl j := by
  simp [appendOut, pl_setPl_ne _ _ _ _ h]

/-! ## Claim theorems -/

/-- C1.  The claim says the ConfirmPassword success path depends on the
chosen NAME still being unique, and that a late NAME collision sends the
session back to AwaitingNewName.  The code (lines 709-710) instead
re-checks the `password` variable: in `gC1a` the chosen name "Bob" is
unique (no Bob on disk, no Bob connected), yet confirming the password
"Alice" — which happens to be another connected player's name — bounces
the session to AwaitingNewName; in `gC1b` a second Bob IS connected, yet
the session enters Playing because the password "secret" collides with
nothing.  This contradicts the source's own comment ("that player might
have been created while we were choosing a password, so check again"). -/
theorem c1_confirm_checks_password_not_name :
    (findPlayerIdx gC1a "Bob" = none ∧ diskLookup gC1a (tocapitals "Bob") = none ∧
      (ProcessConfirmPassword (ProcessCommand 1) gC1a 0 "Alice".data).2 =
        some "That player already exists, please choose another name." ∧
      ((ProcessConfirmPassword (ProcessCommand 1) gC1a 0 "Alice".data).1.pl 0).connstate =
        ConnState.awaitingNewName) ∧
    (findPlayerIdx gC1b "Bob" = some 1 ∧
      ((ProcessConfirmPassword (ProcessCommand 1) gC1b 0 "secret".data).1.pl 0).connstate =
        ConnState.playing) := by
  decide

/-- C6.  Load after Save does NOT return the same flag set: the `LoadSet`
loop (`while (!is.eof ()) { is >> flag; s.insert (flag); }`, line 1041)
always performs one final failed extraction whose cleared, empty token is
inserted, so every loaded flag set gains an extra `""` member.  Password
and room id do round-trip; the flag set comes back as the saved set plus
`""`, observably different (e.g. `HaveFlag ""` becomes true). -/
theorem c6_load_save_adds_empty_flag :
    loadPlayerFile (savePlayerFile "secret" 1000 []) = ("secret", 1000, [""]) ∧
    loadPlayerFile (savePlayerFile "swordfish" 1000 ["can_shutdown"]) =
      ("swordfish", 1000, ["can_shutdown", ""]) := by
  decide

/-- C5.  A broadcast appends the message to the output buffer of exactly
the registry members that are Playing, not closing, not the excluded
session, and (when a room restriction `R ≠ 0` is given) in room `R`; in
particular the excluded session and sessions in other rooms get nothing.
(`IsPlaying` already requires `connected`, state `ePlaying`, and
`!closing`.) -/
theorem c5_broadcast_exactness (g : Game) (message : String) (except : Option Nat)
    (R : Int) (j : Nat) (hj : j < g.nplayers) :
    (some j = except → (sendToAllG g message except R).pl j = g.pl j)
  ∧ (R ≠ 0 → (g.pl j).room ≠ R → (sendToAllG g message except R).pl j = g.pl j)
  ∧ (IsPlaying (g.pl j) = false → (sendToAllG g message except R).pl j = g.pl j)
  ∧ (IsPlaying (g.pl j) = true → some j ≠ except → (R = 0 ∨ (g.pl j).room = R) →
      (sendToAllG g message except R).pl j =
        { g.pl j with outbuf := (g.pl j).outbuf ++ message }) := by
  refine ⟨?_, ?_, ?_, ?_⟩
  · intro h
    simp [sendToAllG, sendToPlayerOne, Game.pl, hj, ← h]
  · intro hR hroom
    simp only [sendToAllG, sendToPlayerOne, Game.pl, hj, if_pos]
    rw [if_neg]
    rintro ⟨-, -, hor⟩
    rcases hor with h0 | hr
    · exact hR h0
    · exact hroom hr
  · intro h
    simp only [sendToAllG, sendToPlayerOne, Game.pl, hj, if_pos]
    rw [if_neg]
    rintro ⟨h1, -, -⟩
    simp only [Game.pl] at h
    rw [h] at h1
    exact Bool.noConfusion h1
  · intro h1 h2 h3
    simp only [sendToAllG, sendToPlayerOne, Game.pl, hj, if_pos]
    rw [if_pos ⟨h1, h2, h3⟩]

/-- Witness for C5: in a two-player world, a room-1000 broadcast that
excludes session 0 leaves session 0 untouched and appends to session 1. -/
theorem c5_broadcast_exactness_witness :
    ((sendToAllG (baseGame 2 (fun _ => basePlayer)) "hi\n" (some 0) 1000).pl 0 =
      (baseGame 2 (fun _ => basePlayer)).pl 0) ∧
    ((sendToAllG (baseGame 2 (fun _ => basePlayer)) "hi\n" (some 0) 1000).pl 1 =
      { (baseGame 2 (fun _ => basePlayer)).pl 1 with
        outbuf := ((baseGame 2 (fun _ => basePlayer)).pl 1).outbuf ++ "hi\n" }) :=
  ⟨(c5_broadcast_exactness (baseGame 2 (fun _ => basePlayer)) "hi\n" (some 0) 1000 0
      (by decide)).1 rfl,
   (c5_broadcast_exactness (baseGame 2 (fun _ => basePlayer)) "hi\n" (some 0) 1000 1
      (by decide)).2.2.2 (by decide) (by decide) (Or.inr (by decide))⟩

/-- C9.  The write pass: the loop only runs on a live socket; each
attempt covers `min (length, 512) ≤ 512` bytes; a negative `write`
return (would-block or other error) ends the pass with the buffer
unchanged; a successful write of `n` bytes removes exactly the first `n`
bytes, and when `n` is short of the attempted length the pass stops
there, leaving the remainder queued. -/
theorem c9_write_pass (os : List WriteRes) (buf : String) (n : Nat) :
    attemptSize buf ≤ 512
  ∧ ProcessWrite true os buf = ProcessWriteAux os buf
  ∧ ProcessWrite false os buf = buf
  ∧ ProcessWriteAux os "" = ""
  ∧ (buf.isEmpty = false →
      ProcessWriteAux (WriteRes.writeError :: os) buf = buf)
  ∧ (buf.isEmpty = false →
      ProcessWriteAux (WriteRes.wrote n :: os) buf =
        if n < attemptSize buf then buf.drop n
        else ProcessWriteAux os (buf.drop n)) := by
  refine ⟨Nat.min_le_right _ _, rfl, rfl, ?_, ?_, ?_⟩
  · cases os with
    | nil => rfl
    | cons o os =>
      have h0 : ("" : String).isEmpty = true := by decide
      simp [ProcessWriteAux, h0]
  · intro h
    simp [ProcessWriteAux, h]
  · intro h
    simp [ProcessWriteAux, h]

/-- Witness for C9: a buffer of 4 bytes, a short write of 2 removes the
first 2 bytes and ends the pass despite further queued outcomes. -/
theorem c9_write_pass_witness :
    ProcessWriteAux [WriteRes.wrote 2, WriteRes.wrote 2] "abcd" =
      (if 2 < attemptSize "abcd" then "abcd".drop 2
       else ProcessWriteAux [WriteRes.wrote 2] ("abcd".drop 2)) :=
  (c9_write_pass [WriteRes.wrote 2] "abcd" 2).2.2.2.2.2 (by decide)

/-! ## Flag-set lemmas for C7 -/

theorem ciMem_ciInsert_self (x : String) (l : List String) :
    ciMem x (ciInsert x l) = true := by
  unfold ciInsert
  split
  · assumption
  · simp [ciMem, List.any_append, ciEq]

theorem ciMem_ciInsert_of_mem (x y : String) (l : List String) (h : ciMem x l = true) :
    ciMem x (ciInsert y l) = true := by
  unfold ciInsert
  split
  · exact h
  · simp only [ciMem, List.any_append] at h ⊢
    simp [h]

theorem ciErase_ciInsert (x : String) (l : List String) (h : ciMem x l = false) :
    ciErase x (ciInsert x l) = l := by
  unfold ciInsert
  rw [if_neg (by simp [h])]
  unfold ciErase
  rw [List.filter_append]
  have h1 : List.filter (fun g => lcs g != lcs x) [x] = [] := by simp
  rw [h1, List.append_nil]
  apply List.filter_eq_self.mpr
  intro a ha
  cases hax : ciEq a x with
  | true =>
    exfalso
    have hm : ciMem x l = true := by
      simp only [ciMem, List.any_eq_true]
      exact ⟨a, ha, hax⟩
    rw [hm] at h
    exact Bool.noConfusion h
  | false =>
    simp only [ciEq] at hax
    simp [bne, hax]

theorem setPl_setPl (g : Game) (i : Nat) (p q : Player) :
    setPl (setPl g i p) i q = setPl g i q := by
  unfold setPl
  congr 1
  funext j
  by_cases h : j = i <;> simp [h]

theorem flags_appendOut (g : Game) (i j : Nat) (t : String) :
    ((appendOut g i t).pl j).flags = ((g.pl j).flags) := by
  by_cases h : j = i
  · subst h
    rw [pl_appendOut_self]
  · rw [pl_appendOut_ne _ _ _ _ h]

/-- C7.  Flag idempotency at the `DoSetFlag`/`DoClearFlag` level: with
the permission present and the arguments parsing to a target `j` and a
flag, (i) setting an already-set flag errors and leaves the whole game
unchanged; (ii) clearing an unset flag errors and leaves the whole game
unchanged; (iii) a successful set followed by a clear of the same flag on
the same target succeeds and restores the target's flag set exactly. -/
theorem c7_setflag_clearflag_idempotence :
    (∀ (g : Game) (i : Nat) (args : List Char) (j : Nat) (rest : List Char)
        (flag : String) (rest2 : List Char),
      HaveFlag (g.pl i) "can_setflag" = true →
      GetPlayer g i args "Usage: setflag <who> <flag>" false = Except.ok (j, rest) →
      GetFlag rest "Set which flag?" = Except.ok (flag, rest2) →
      noMore rest2 = none →
      ciMem flag ((g.pl j).flags) = true →
      DoSetFlag g i args = (g, some "Flag already set."))
  ∧ (∀ (g : Game) (i : Nat) (args : List Char) (j : Nat) (rest : List Char)
        (flag : String) (rest2 : List Char),
      HaveFlag (g.pl i) "can_setflag" = true →
      GetPlayer g i args "Usage: clearflag <who> <flag>" false = Except.ok (j, rest) →
      GetFlag rest "Clear which flag?" = Except.ok (flag, rest2) →
      noMore rest2 = none →
      ciMem flag ((g.pl j).flags) = false →
      DoClearFlag g i args = (g, some "Flag not set."))
  ∧ (∀ (g : Game) (i : Nat) (args : List Char) (j : Nat) (rest : List Char)
        (flag : String) (rest2 args' rest' rest2' : List Char),
      HaveFlag (g.pl i) "can_setflag" = true →
      GetPlayer g i args "Usage: setflag <who> <flag>" false = Except.ok (j, rest) →
      GetFlag rest "Set which flag?" = Except.ok (flag, rest2) →
      noMore rest2 = none →
      ciMem flag ((g.pl j).flags) = false →
      GetPlayer (DoSetFlag g i args).1 i args' "Usage: clearflag <who> <flag>" false =
        Except.ok (j, rest') →
      GetFlag rest' "Clear which flag?" = Except.ok (flag, rest2') →
      noMore rest2' = none →
      (DoSetFlag g i args).2 = none ∧
      (DoClearFlag (DoSetFlag g i args).1 i args').2 = none ∧
      ((DoClearFlag (DoSetFlag g i args).1 i args').1.pl j).flags = (g.pl j).flags) := by
  refine ⟨?_, ?_, ?_⟩
  · intro g i args j rest flag rest2 h1 h2 h3 h4 h5
    simp [DoSetFlag, h1, h2, h3, h4, h5]
  · intro g i args j rest flag rest2 h1 h2 h3 h4 h5
    simp [DoClearFlag, h1, h2, h3, h4, h5]
  · intro g i args j rest flag rest2 args' rest' rest2' h1 h2 h3 h4 h5 h2' h3' h4'
    have hset : DoSetFlag g i args =
        (appendOut (setPl g j { g.pl j with flags := ciInsert flag ((g.pl j).flags) }) i
          ("You set the flag '" ++ flag ++ "' for " ++ (g.pl j).playername ++ "\n"),
         none) := by
      simp [DoSetFlag, h1, h2, h3, h4, h5]
    have hflagsJ : (((DoSetFlag g i args).1.pl j).flags) = ciInsert flag ((g.pl j).flags) := by
      rw [hset]
      rw [flags_appendOut]
      rw [pl_setPl_self]
    have hperm : HaveFlag ((DoSetFlag g i args).1.pl i) "can_setflag" = true := by
      rw [hset]
      unfold HaveFlag
      rw [flags_appendOut]
      by_cases hij : i = j
      · subst hij
        rw [pl_setPl_self]
        exact ciMem_ciInsert_of_mem _ _ _ h1
      · rw [pl_setPl_ne _ _ _ _ hij]
        exact h1
    have hmem : ciMem flag (((DoSetFlag g i args).1.pl j).flags) = true := by
      rw [hflagsJ]
      exact ciMem_ciInsert_self _ _
    have hclear : DoClearFlag (DoSetFlag g i args).1 i args' =
        (appendOut
          (setPl (DoSetFlag g i args).1 j
            { (DoSetFlag g i args).1.pl j with
              flags := ciErase flag (((DoSetFlag g i args).1.pl j).flags) }) i
          ("You clear the flag '" ++ flag ++ "' for "
            ++ ((DoSetFlag g i args).1.pl j).playername ++ "\n"),
         none) := by
      simp [DoClearFlag, hperm, h2', h3', h4', hmem]
    refine ⟨by rw [hset], by rw [hclear], ?_⟩
    rw [hclear]
    rw [flags_appendOut]
    rw [pl_setPl_self]
    rw [hflagsJ]
    exact ciErase_ciInsert _ _ h5

/-- Witness for C7: setting Bob's already-set flag "shiny" is rejected
and the game is unchanged. -/
theorem c7_setflag_clearflag_idempotence_witness :
    DoSetFlag gC7 0 ("Bob shiny".data) = (gC7, some "Flag already set.") :=
  c7_setflag_clearflag_idempotence.1 gC7 0 ("Bob shiny".data) 1 (" shiny".data) "shiny" []
    (by decide) (by rfl) (by rfl) (by decide) (by decide)

/-! ## String append lemmas -/

theorem strAppendEmpty (s : String) : s ++ "" = s := by
  cases s with
  | mk l => exact congrArg String.mk (List.append_nil l)

theorem strAppendAssoc (a b c : String) : a ++ b ++ c = a ++ (b ++ c):= by
  cases a with
  | mk la =>
    cases b with
    | mk lb =>
      cases c with
      | mk lc => exact congrArg String.mk (List.append_assoc la lb lc)

/-- C8.  The dispatch boundary: whatever the state handler for the
session's current state does (it is total — `dispatchState` covers all
six states), `ProcessPlayerInput` only adds text to the acting session's
output: other sessions are exactly as the handler left them; the actor's
connection flags and state are exactly as the handler left them (an
error never terminates the connection, and none escapes the boundary);
and the actor's output gains the error rendered as one line (when one
was thrown) followed by the current prompt, in every state and in both
the error and success cases. -/
theorem c8_dispatch_boundary (fuel : Nat) (g : Game) (i : Nat) (s : String)
    (g' : Game) (err : Option String)
    (h : dispatchState fuel ((g.pl i).connstate) g i s.data = (g', err)) :
    (∀ j, j ≠ i → (ProcessPlayerInput fuel g i s).pl j = g'.pl j)
  ∧ ((ProcessPlayerInput fuel g i s).pl i).connected = (g'.pl i).connected
  ∧ ((ProcessPlayerInput fuel g i s).pl i).closing = (g'.pl i).closing
  ∧ ((ProcessPlayerInput fuel g i s).pl i).connstate = (g'.pl i).connstate
  ∧ ((ProcessPlayerInput fuel g i s).pl i).outbuf =
      (g'.pl i).outbuf ++ ((err.map (fun e => e ++ "\n")).getD "") ++ (g'.pl i).prompt := by
  unfold ProcessPlayerInput
  rw [h]
  cases err with
  | none =>
    refine ⟨?_, ?_, ?_, ?_, ?_⟩
    · intro j hj
      simp only []
      rw [pl_appendOut_ne _ _ _ _ hj]
    · simp only []
      rw [pl_appendOut_self]
    · simp only []
      rw [pl_appendOut_self]
    · simp only []
      rw [pl_appendOut_self]
    · simp [pl_appendOut_self, strAppendEmpty]
  | some e =>
    refine ⟨?_, ?_, ?_, ?_, ?_⟩
    · intro j hj
      simp only []
      rw [pl_appendOut_ne _ _ _ _ hj, pl_appendOut_ne _ _ _ _ hj]
    · simp only []
      rw [pl_appendOut_self, pl_appendOut_self]
    · simp only []
      rw [pl_appendOut_self, pl_appendOut_self]
    · simp only []
      rw [pl_appendOut_self, pl_appendOut_self]
    · simp [pl_appendOut_self, strAppendAssoc]

/-- Witness for C8: an unknown verb while Playing throws "Huh?", which is
rendered as one line followed by the prompt. -/
theorem c8_dispatch_boundary_witness :
    dispatchState 1 (((baseGame 1 (fun _ => basePlayer)).pl 0).connstate)
      (baseGame 1 (fun _ => basePlayer)) 0 ("xyzzy".data) =
      (baseGame 1 (fun _ => basePlayer), some "Huh?") ∧
    ((ProcessPlayerInput 1 (baseGame 1 (fun _ => basePlayer)) 0 "xyzzy").pl 0).outbuf =
      (((baseGame 1 (fun _ => basePlayer)).pl 0).outbuf ++
        (((some "Huh?").map (fun e => e ++ "\n")).getD "") ++
        (((baseGame 1 (fun _ => basePlayer)).pl 0).prompt)) :=
  ⟨by rfl,
   (c8_dispatch_boundary 1 (baseGame 1 (fun _ => basePlayer)) 0 "xyzzy"
      (baseGame 1 (fun _ => basePlayer)) (some "Huh?") (by rfl)).2.2.2.2⟩

/-- C4.  Movement: with the current room found, a direction with no
entry in its exit map throws "You cannot go that way." and leaves the
ENTIRE game state unchanged (room id included, and no output is appended
to any session); an exit whose destination vnum is not in the room map — a
dangling exit, only detected here at traversal — throws the missing-room
error and likewise changes nothing (the destination lookup precedes the
departure broadcast in `PlayerToRoom`); and movement succeeds only when
the direction is present in the exit map. -/
theorem c4_movement_errors (runCmd : RunCmd) (g : Game) (i : Nat) (dir : String) (r : Room)
    (hr : findRoom g ((g.pl i).room) = some r) :
    (lookupExit r.exits dir = none →
      DoDirection runCmd g i dir = (g, some "You cannot go that way."))
  ∧ (∀ dest, lookupExit r.exits dir = some dest → findRoom g dest = none →
      DoDirection runCmd g i dir =
        (g, some ("Room number " ++ toString dest ++ " does not exist.")))
  ∧ ((DoDirection runCmd g i dir).2 = none →
      ∃ dest, lookupExit r.exits dir = some dest) := by
  refine ⟨?_, ?_, ?_⟩
  · intro hx
    simp [DoDirection, hr, hx]
  · intro dest hx hd
    simp [DoDirection, hr, hx, PlayerToRoom, hd]
  · intro hnone
    cases hx : lookupExit r.exits dir with
    | some dest => exact ⟨dest, rfl⟩
    | none =>
      rw [show DoDirection runCmd g i dir = (g, some "You cannot go that way.") from by
        simp [DoDirection, hr, hx]] at hnone
      exact Option.noConfusion hnone

/-- Witness for C4: "up" has no exit; "n" dangles; both leave `gC4`
untouched. -/
theorem c4_movement_errors_witness :
    DoDirection (ProcessCommand 1) gC4 0 "up" = (gC4, some "You cannot go that way.") ∧
    DoDirection (ProcessCommand 1) gC4 0 "n" =
      (gC4, some ("Room number " ++ toString (2000 : Int) ++ " does not exist.")) :=
  ⟨(c4_movement_errors (ProcessCommand 1) gC4 0 "up"
      { description := "The Hall\n", exits := [("n", 2000)] } (by rfl)).1 (by rfl),
   (c4_movement_errors (ProcessCommand 1) gC4 0 "n"
      { description := "The Hall\n", exits := [("n", 2000)] } (by rfl)).2.1 2000
      (by rfl) (by rfl)⟩

/-- C3 counterexample.  The claim says a result of zero OR ERROR bytes
marks the socket dead and runs a synthetic "quit".  On an error result
(`read` returning `-1` with errno other than `EWOULDBLOCK`) the code
only logs and returns (lines 1126-1131): the session stays connected and
playing, is not closed, and no departure text reaches the other session. -/
theorem c3_error_read_is_noop :
    ((ProcessRead 1 gC3 0 ReadResult.readError).pl 0).connected = true ∧
    ((ProcessRead 1 gC3 0 ReadResult.readError).pl 0).connstate = ConnState.playing ∧
    ((ProcessRead 1 gC3 0 ReadResult.readError).pl 0).closing = false ∧
    ((ProcessRead 1 gC3 0 ReadResult.readError).pl 1).outbuf = "" := by
  decide

/-- C3 as amended: for a non-closing session a would-block read and an
error read are both no-ops (the whole game state is unchanged), while a
zero-byte read marks the socket dead and dispatches one synthetic "quit"
against the session — the single place disconnect side effects happen;
once the session is closing, reads do nothing at all. -/
theorem c3_read_outcomes (fuel : Nat) (g : Game) (i : Nat) :
    ((g.pl i).closing = true → ∀ r, ProcessRead fuel g i r = g)
  ∧ ((g.pl i).closing = false →
      ProcessRead fuel g i ReadResult.wouldBlock = g
    ∧ ProcessRead fuel g i ReadResult.readError = g
    ∧ ProcessRead fuel g i ReadResult.closedPeer =
        ProcessPlayerInput fuel (setPl g i { g.pl i with connected := false }) i "quit") := by
  constructor
  · intro h r
    simp [ProcessRead, h]
  · intro h
    refine ⟨?_, ?_, ?_⟩ <;> simp [ProcessRead, h]

/-- Witness for C3's amended statement. -/
theorem c3_read_outcomes_witness :
    (gC3.pl 0).closing = false ∧ ProcessRead 1 gC3 0 ReadResult.wouldBlock = gC3 :=
  ⟨by decide, ((c3_read_outcomes 1 gC3 0).2 (by decide)).1⟩

/-- C2 counterexample.  After the third consecutive failure the session
does return to AwaitingName with flags cleared, but `tPlayer::Init`
(line 185) does NOT clear `playername` or `password`: the "partial
identity cleared" part of the claim is false. -/
theorem c2_identity_not_cleared :
    ((ProcessPlayerPassword (ProcessCommand 1) gC2 0 ("wrong".data)).1.pl 0).connstate =
      ConnState.awaitingName ∧
    ((ProcessPlayerPassword (ProcessCommand 1) gC2 0 ("wrong".data)).1.pl 0).playername =
      "Bob" ∧
    ((ProcessPlayerPassword (ProcessCommand 1) gC2 0 ("wrong".data)).1.pl 0).password =
      "secret" := by
  decide

/-- C2 as amended.  Every failed password attempt (blank or wrong
password) throws and increments the failure counter; when the counter
reaches `MAX_PASSWORD_ATTEMPTS` (3) on exactly the third consecutive
failure, the session is reset to AwaitingName via `Init` — flags
cleared, room and prompt reset, a "Too many attempts" line queued — with
the connection left open (`connected`/`closing` unchanged), but the
`playername` and `password` fields are NOT cleared (they are only
overwritten on the next name entry); below the maximum the state is
unchanged. -/
theorem c2_third_failure_resets_to_name_entry (rc : RunCmd) (g : Game) (i : Nat)
    (cs : List Char)
    (hw : (readString cs).1 = "" ∨ (readString cs).1 ≠ (g.pl i).password) :
    ((ProcessPlayerPassword rc g i cs).2.isSome = true)
  ∧ (((ProcessPlayerPassword rc g i cs).1.pl i).badPasswordCount
      = (g.pl i).badPasswordCount + 1)
  ∧ ((g.pl i).badPasswordCount + 1 = MAX_PASSWORD_ATTEMPTS →
      ((ProcessPlayerPassword rc g i cs).1.pl i).connstate = ConnState.awaitingName
    ∧ ((ProcessPlayerPassword rc g i cs).1.pl i).flags = []
    ∧ ((ProcessPlayerPassword rc g i cs).1.pl i).room = INITIAL_ROOM
    ∧ ((ProcessPlayerPassword rc g i cs).1.pl i).prompt
        = "Enter your name, or 'new' to create a new character ...  "
    ∧ ((ProcessPlayerPassword rc g i cs).1.pl i).playername = (g.pl i).playername
    ∧ ((ProcessPlayerPassword rc g i cs).1.pl i).password = (g.pl i).password
    ∧ ((ProcessPlayerPassword rc g i cs).1.pl i).closing = (g.pl i).closing
    ∧ ((ProcessPlayerPassword rc g i cs).1.pl i).connected = (g.pl i).connected
    ∧ ((ProcessPlayerPassword rc g i cs).1.pl i).outbuf
        = (g.pl i).outbuf ++ "Too many attempts to guess the password!\n")
  ∧ ((g.pl i).badPasswordCount + 1 < MAX_PASSWORD_ATTEMPTS →
      ((ProcessPlayerPassword rc g i cs).1.pl i).connstate = (g.pl i).connstate
    ∧ ((ProcessPlayerPassword rc g i cs).1.pl i).playername = (g.pl i).playername) := by
  have key : ∃ e : String, ProcessPlayerPassword rc g i cs =
      (if (g.pl i).badPasswordCount + 1 ≥ MAX_PASSWORD_ATTEMPTS
       then (setPl g i (initPlayer { g.pl i with
              badPasswordCount := (g.pl i).badPasswordCount + 1
              outbuf := (g.pl i).outbuf ++ "Too many attempts to guess the password!\n" }),
             some e)
       else (setPl g i { g.pl i with
              badPasswordCount := (g.pl i).badPasswordCount + 1 },
             some e)) := by
    rcases hw with h | h
    · exact ⟨"Password cannot be blank.", by simp [ProcessPlayerPassword, h]⟩
    · by_cases h0 : (readString cs).1 = ""
      · exact ⟨"Password cannot be blank.", by simp [ProcessPlayerPassword, h0]⟩
      · exact ⟨"That password is incorrect.", by simp [ProcessPlayerPassword, h0, h]⟩
  rcases key with ⟨e, he⟩
  refine ⟨?_, ?_, ?_, ?_⟩
  · rw [he]
    split <;> simp
  · rw [he]
    split <;> simp [initPlayer]
  · intro hcnt
    rw [he, if_pos (by omega)]
    simp [initPlayer]
  · intro hcnt
    rw [he, if_neg (by omega)]
    simp

/-- Witness for C2's amended statement: `gC2`'s third failure. -/
theorem c2_third_failure_resets_to_name_entry_witness :
    ((readString ("wrong".data)).1 = "" ∨
      (readString ("wrong".data)).1 ≠ (gC2.pl 0).password) ∧
    ((ProcessPlayerPassword (ProcessCommand 1) gC2 0 ("wrong".data)).1.pl 0).badPasswordCount
      = (gC2.pl 0).badPasswordCount + 1 :=
  ⟨Or.inr (by decide),
   (c2_third_failure_resets_to_name_entry (ProcessCommand 1) gC2 0 ("wrong".data)
      (Or.inr (by decide))).2.1⟩

/-- C10.  In AwaitingPassword, a CORRECT password for a record carrying
the flag "blocked" does not enter Playing: the session is marked closing,
the handler throws "You are not permitted to connect." (rendered to the
session by the dispatch boundary), and the event counts as one more
failed password attempt toward the maximum. -/
theorem c10_blocked_player_rejected (rc : RunCmd) (g : Game) (i : Nat) (cs : List Char)
    (hst : (g.pl i).connstate = ConnState.awaitingPassword)
    (hw : (readString cs).1 = (g.pl i).password)
    (hne : (g.pl i).password ≠ "")
    (hbl : HaveFlag (g.pl i) "blocked" = true) :
    ((ProcessPlayerPassword rc g i cs).2 = some "You are not permitted to connect.")
  ∧ (((ProcessPlayerPassword rc g i cs).1.pl i).closing = true)
  ∧ (((ProcessPlayerPassword rc g i cs).1.pl i).connstate ≠ ConnState.playing)
  ∧ (((ProcessPlayerPassword rc g i cs).1.pl i).badPasswordCount
      = (g.pl i).badPasswordCount + 1) := by
  have key : ProcessPlayerPassword rc g i cs =
      (if (g.pl i).badPasswordCount + 1 ≥ MAX_PASSWORD_ATTEMPTS
       then (setPl g i (initPlayer
              { { g.pl i with closing := true, prompt := "Goodbye.\n" } with
                badPasswordCount := (g.pl i).badPasswordCount + 1
                outbuf := (g.pl i).outbuf
                  ++ "Too many attempts to guess the password!\n" }),
             some "You are not permitted to connect.")
       else (setPl g i
              { { g.pl i with closing := true, prompt := "Goodbye.\n" } with
                badPasswordCount := (g.pl i).badPasswordCount + 1 },
             some "You are not permitted to connect.")) := by
    simp [ProcessPlayerPassword, hw, hne, hbl, setPl_setPl]
  refine ⟨?_, ?_, ?_, ?_⟩
  · rw [key]
    split <;> simp
  · rw [key]
    split <;> simp [initPlayer]
  · rw [key]
    split
    · simp [initPlayer]
    · simp only [pl_setPl_self]
      intro hcon
      rw [hst] at hcon
      exact ConnState.noConfusion hcon
  · rw [key]
    split <;> simp [initPlayer]

/-- Witness for C10: the correct password "secret" on the blocked record. -/
theorem c10_blocked_player_rejected_witness :
    ((ProcessPlayerPassword (ProcessCommand 1) gC10 0 ("secret".data)).2 =
      some "You are not permitted to connect.") ∧
    (((ProcessPlayerPassword (ProcessCommand 1) gC10 0 ("secret".data)).1.pl 0).closing =
      true) :=
  ⟨(c10_blocked_player_rejected (ProcessCommand 1) gC10 0 ("secret".data)
      (by decide) (by decide) (by decide) (by decide)).1,
   (c10_blocked_player_rejected (ProcessCommand 1) gC10 0 ("secret".data)
      (by decide) (by decide) (by decide) (by decide)).2.1⟩

end TinyMud
